import Mathlib

/-!
Shallow embedding of the cpufreq core (drivers/cpufreq/cpufreq.c).

Pure data is modelled by structures over Nat/Int; the external
collaborators (the PM-QoS layer, the hardware driver callbacks, the
notifier-chain subscribers and the governor callback) are oracle fields of
an environment record, since their code lives outside this file's source.
Every modelled function returns, besides its C return value and the
mutated records, a trace of the externally visible callback invocations
(governor events, driver verify/setpolicy calls, notifier fan-outs,
PRECHANGE/POSTCHANGE deliveries, scheduled deferred work), so that claims
about which callbacks run can be stated as facts about the trace.
-/

/-- Linux error number EINVAL (functions return the negated value). -/
def EINVAL : Int := 22

/-- Linux error number ENODEV. -/
def ENODEV : Int := 19

/-- Linux error number ENOMEM. -/
def ENOMEM : Int := 12

/-- Linux error number EBUSY. -/
def EBUSY : Int := 16

/-- CPUFREQ_POLICY_PERFORMANCE. -/
def POLICY_PERFORMANCE : Nat := 1

/-- CPUFREQ_POLICY_POWERSAVE. -/
def POLICY_POWERSAVE : Nat := 2

/-- A registered governor: `struct cpufreq_governor`.  The `id` field
stands for the object's address, so that equality of two `Governor`
values models the pointer comparisons the source performs
(`policy->governor != data->governor`). `max_transition_latency` is 0
when the governor declares no latency bound (the source treats 0 as
"unset" in its guard). -/
structure Governor where
  id : Nat
  name : String
  max_transition_latency : Nat
  deriving DecidableEq, Repr

/-- Model of `struct cpufreq_cpuinfo`: immutable hardware bounds. -/
structure Cpuinfo where
  min_freq : Nat
  max_freq : Nat
  transition_latency : Nat
  deriving DecidableEq, Repr

/-- The `user_policy` sub-record of `struct cpufreq_policy`
(`struct cpufreq_real_policy`): the last user-requested window, mode and
governor. -/
structure UserPolicy where
  min : Nat
  max : Nat
  policy : Nat
  governor : Option Governor
  deriving DecidableEq, Repr

/-- Model of `struct cpufreq_policy`.  `cpus` and `related_cpus` are the cpumasks;
`cpu` is the owner CPU of the attribute surface; `policy` is the
CPUFREQ_POLICY_* mode field; `governor` is the governor pointer. -/
structure Policy where
  cpu : Nat
  cpus : List Nat
  related_cpus : List Nat
  min : Nat
  max : Nat
  cur : Nat
  policy : Nat
  governor : Option Governor
  cpuinfo : Cpuinfo
  user_policy : UserPolicy
  deriving DecidableEq, Repr

/-- Governor events: CPUFREQ_GOV_START / _STOP / _LIMITS. -/
inductive GovEvent where
  | start
  | stop
  | limits
  deriving DecidableEq, Repr

/-- Externally visible callback invocations, recorded in traces. -/
inductive Ev where
  /-- `policy->governor->governor(policy, event)` ran for this governor. -/
  | govEv (g : Governor) (e : GovEvent)
  /-- `cpufreq_driver->verify(policy)` ran. -/
  | verifyEv
  /-- blocking notifier fan-out CPUFREQ_ADJUST. -/
  | adjustEv
  /-- blocking notifier fan-out CPUFREQ_INCOMPATIBLE. -/
  | incompatEv
  /-- blocking notifier fan-out CPUFREQ_NOTIFY. -/
  | notifyEv
  /-- `cpufreq_driver->setpolicy(policy)` ran. -/
  | setpolicyEv
  /-- srcu notifier fan-out CPUFREQ_PRECHANGE with this record. -/
  | preChange (cpu old new : Nat)
  /-- srcu notifier fan-out CPUFREQ_POSTCHANGE with this record. -/
  | postChange (cpu old new : Nat)
  /-- `schedule_work(&policy->update)` for the policy with this store id;
  the work item was bound by INIT_WORK to `handle_update`, which runs
  `cpufreq_update_policy(policy->cpu)`. -/
  | schedWork (pid : Nat)
  deriving DecidableEq, Repr

/-- Environment of external collaborators for the transition engine.
`qosMin`/`qosMax` are the current `pm_qos_request` values for
PM_QOS_CPU_FREQ_MIN / PM_QOS_CPU_FREQ_MAX.  `verify` models
`cpufreq_driver->verify` (returns the C result and the clamped policy);
`adjust`, `incompat`, `notifyChain` model the blocking notifier
subscribers, which may mutate the proposed policy (their chain return
value is ignored by the source).  `hasSetpolicy`/`hasTarget` say which
of the mutually exclusive driver shapes is present.  `govCall` is the
governor callback `governor->governor(policy, event)` modelled as a
function of the governor identity and event.  `perfGov` is
`cpufreq_gov_performance` when CONFIG_CPU_FREQ_GOV_PERFORMANCE is
compiled in, else `none`.  `findGovernor` models `__find_governor`
(after the module-request retry). -/
structure Env where
  qosMin : Nat
  qosMax : Nat
  verify : Policy → Int × Policy
  adjust : Policy → Policy
  incompat : Policy → Policy
  notifyChain : Policy → Policy
  hasSetpolicy : Bool
  setpolicy : Policy → Int
  hasTarget : Bool
  govCall : Governor → GovEvent → Int
  perfGov : Option Governor
  findGovernor : String → Option Governor

/-- Model of `__cpufreq_governor(policy, event)` (cpufreq.c:1939).  If the
policy's governor declares a non-zero `max_transition_latency` smaller
than the hardware `transition_latency`, the compiled-in performance
governor replaces it on the policy (or the call fails with -EINVAL when
none is compiled in); then the governor callback runs.  The
`try_module_get` on the governor's owning module is modelled as always
succeeding (the registry holds the module alive while a policy
references the governor); the module refcount bookkeeping at the tail
carries no policy state.  The source dereferences `policy->governor`
unconditionally; callers install a governor before dispatching, so the
`none` case (modelled as -EINVAL without a callback) is unreachable. -/
def cpufreq_governor (env : Env) (policy : Policy) (event : GovEvent) :
    Int × Policy × List Ev :=
  match policy.governor with
  | none => (-EINVAL, policy, [])
  | some g =>
    if g.max_transition_latency ≠ 0 ∧
        policy.cpuinfo.transition_latency > g.max_transition_latency then
      match env.perfGov with
      | none => (-EINVAL, policy, [])
      | some gov =>
        let policy := { policy with governor := some gov }
        (env.govCall gov event, policy, [Ev.govEv gov event])
    else
      (env.govCall g event, policy, [Ev.govEv g event])

/-- Result of `__cpufreq_set_policy`: the C return value, the mutated
current policy (`data`), the mutated proposed policy (`policy`, whose
`min`/`max` the epilogue restores), and the callback trace. -/
structure SPResult where
  ret : Int
  data : Policy
  policy : Policy
  tr : List Ev
  deriving Repr

/-- Model of `__cpufreq_set_policy(data, policy)` (cpufreq.c:2068).  Straight-line
translation: QoS clamp against the user-requested opposite bounds, copy
of `cpuinfo`, range check against `user_policy`, first `verify`,
ADJUST/INCOMPATIBLE fan-out, second `verify`, NOTIFY fan-out, commit of
`min`/`max` onto `data`, then the driver-shape branch (setpolicy commit,
or governor switch with rollback plus GOV_LIMITS).  Every exit passes
through `error_out`, which restores `policy->min`/`policy->max` to the
values the caller passed in. -/
def cpufreq_set_policy (env : Env) (data policy : Policy) : SPResult :=
  let pmin := policy.min
  let pmax := policy.max
  let qmin := Nat.min env.qosMin data.user_policy.max
  let qmax := Nat.max env.qosMax data.user_policy.min
  -- clamp the new policy to PM QoS limits, copy immutable cpuinfo
  let policy := { policy with
    min := Nat.max pmin qmin
    max := Nat.min pmax qmax
    cpuinfo := data.cpuinfo }
  if policy.min > data.user_policy.max ∨
      policy.max < data.user_policy.min then
    ⟨-EINVAL, data, { policy with min := pmin, max := pmax }, []⟩
  else
    -- verify the cpu speed can be set within this limit
    let v1 := env.verify policy
    let policy := v1.2
    let tr := [Ev.verifyEv]
    if v1.1 ≠ 0 then
      ⟨v1.1, data, { policy with min := pmin, max := pmax }, tr⟩
    else
      -- adjust if necessary - all reasons / hardware incompatibility
      let policy := env.adjust policy
      let policy := env.incompat policy
      let v2 := env.verify policy
      let policy := v2.2
      let tr := tr ++ [Ev.adjustEv, Ev.incompatEv, Ev.verifyEv]
      if v2.1 ≠ 0 then
        ⟨v2.1, data, { policy with min := pmin, max := pmax }, tr⟩
      else
        -- notification of the new policy, then commit onto data
        let policy := env.notifyChain policy
        let tr := tr ++ [Ev.notifyEv]
        let data := { data with min := policy.min, max := policy.max }
        if env.hasSetpolicy then
          let data := { data with policy := policy.policy }
          let ret := env.setpolicy policy
          ⟨ret, data, { policy with min := pmin, max := pmax },
            tr ++ [Ev.setpolicyEv]⟩
        else
          if policy.governor ≠ data.governor then
            -- save old, working values
            let old_gov := data.governor
            -- end old governor
            let stopStep :=
              match data.governor with
              | some _ =>
                let r := cpufreq_governor env data GovEvent.stop
                (r.2.1, r.2.2)
              | none => (data, [])
            let data := stopStep.1
            let tr := tr ++ stopStep.2
            -- start new governor
            let data := { data with governor := policy.governor }
            let st := cpufreq_governor env data GovEvent.start
            let data := st.2.1
            let tr := tr ++ st.2.2
            if st.1 ≠ 0 then
              -- new governor failed, so re-start old one
              match old_gov with
              | some og =>
                let data := { data with governor := some og }
                let rs := cpufreq_governor env data GovEvent.start
                ⟨-EINVAL, rs.2.1, { policy with min := pmin, max := pmax },
                  tr ++ rs.2.2⟩
              | none =>
                ⟨-EINVAL, data, { policy with min := pmin, max := pmax }, tr⟩
            else
              let lim := cpufreq_governor env data GovEvent.limits
              ⟨0, lim.2.1, { policy with min := pmin, max := pmax },
                tr ++ lim.2.2⟩
          else
            let lim := cpufreq_governor env data GovEvent.limits
            ⟨0, lim.2.1, { policy with min := pmin, max := pmax },
              tr ++ lim.2.2⟩

/-- Global per-CPU and registry state.  `table` is the per-CPU pointer
array `cpufreq_cpu_data` (CPU → policy object id), `store` resolves a
policy object id to the policy record (so several CPUs of one affinity
set alias one object, as the per-CPU pointers do in the source),
`policyCpu` is `cpufreq_policy_cpu`, `kobjRefs` the per-policy kobject
reference count, `modRefs` the driver module reference count,
`driverPresent` whether `cpufreq_driver` is non-NULL, `ownerAlive`
whether `try_module_get(cpufreq_driver->owner)` succeeds (false while
the driver module is being unloaded), `online` the cpu_online mask,
`nrCpuIds` `nr_cpu_ids`, and `nextId` the next unused policy object id
(the allocator; freed ids are not reused). -/
structure SysState where
  nrCpuIds : Nat
  online : Nat → Bool
  driverPresent : Bool
  ownerAlive : Bool
  modRefs : Nat
  table : Nat → Option Nat
  store : Nat → Policy
  policyCpu : Nat → Nat
  kobjRefs : Nat → Nat
  nextId : Nat

/-- Model of `cpufreq_cpu_get(cpu)` (cpufreq.c:152).  Fails (returns `none`, state
net-unchanged) when the CPU index is out of range, no driver is
registered, the driver module cannot be pinned, or no policy is attached
at `cpu`; on success it has incremented the driver-module refcount
(`try_module_get`) and the policy's kobject refcount (`kobject_get`,
which on a live kobject always succeeds) and returns the policy id. -/
def cpufreq_cpu_get (s : SysState) (cpu : Nat) : Option Nat × SysState :=
  if cpu ≥ s.nrCpuIds then (none, s)
  else if ¬ s.driverPresent then (none, s)
  else if ¬ s.ownerAlive then (none, s)
  else
    let s := { s with modRefs := s.modRefs + 1 }
    match s.table cpu with
    | none =>
      (none, { s with modRefs := s.modRefs - 1 })
    | some pid =>
      (some pid,
        { s with kobjRefs := fun i =>
            if i = pid then s.kobjRefs pid + 1 else s.kobjRefs i })

/-- Model of `cpufreq_cpu_put(data)` (cpufreq.c:192): drop the kobject reference
and the driver-module reference. -/
def cpufreq_cpu_put (s : SysState) (pid : Nat) : SysState :=
  { s with
    kobjRefs := fun i => if i = pid then s.kobjRefs pid - 1 else s.kobjRefs i
    modRefs := s.modRefs - 1 }

/-- The two phases of `cpufreq_notify_transition`. -/
inductive TransPhase where
  | pre
  | post
  deriving DecidableEq, Repr

/-- Model of `struct cpufreq_freqs` (the `flags` copy from the driver carries no
state the claims touch). -/
structure Freqs where
  cpu : Nat
  old : Nat
  new : Nat
  deriving DecidableEq, Repr

/-- Model of `cpufreq_notify_transition(freqs, state)` (cpufreq.c:339), with
`constLoops` standing for `cpufreq_driver->flags & CPUFREQ_CONST_LOOPS`.
PRECHANGE: when `!const_loops` and the policy attached at the event's
CPU is owned by that CPU and has a non-zero `cur` different from
`freqs->old`, the core overwrites `freqs->old` with `policy->cur`
(drift correction), then delivers the srcu chain.  POSTCHANGE: deliver
the srcu chain, then update `policy->cur = freqs->new` only when a
policy is attached at the event's CPU and its owner CPU equals the
event's CPU.  (`adjust_jiffies` and the tracepoints touch no modelled
state.) -/
def cpufreq_notify_transition (constLoops : Bool) (s : SysState)
    (f : Freqs) (phase : TransPhase) : SysState × Freqs × List Ev :=
  match phase with
  | TransPhase.pre =>
    let f :=
      if ¬ constLoops then
        match s.table f.cpu with
        | some pid =>
          let p := s.store pid
          if p.cpu = f.cpu ∧ p.cur ≠ 0 ∧ p.cur ≠ f.old then
            { f with old := p.cur }
          else f
        | none => f
      else f
    (s, f, [Ev.preChange f.cpu f.old f.new])
  | TransPhase.post =>
    let tr := [Ev.postChange f.cpu f.old f.new]
    match s.table f.cpu with
    | some pid =>
      let p := s.store pid
      if p.cpu = f.cpu then
        ({ s with store := fun i =>
            if i = pid then { p with cur := f.new } else s.store i },
          f, tr)
      else (s, f, tr)
    | none => (s, f, tr)

/-- Model of `cpufreq_out_of_sync(cpu, old_freq, new_freq)` (cpufreq.c:1604):
synthesize a PRECHANGE followed by a POSTCHANGE for the record
`{cpu, old_freq, new_freq}`. -/
def cpufreq_out_of_sync (constLoops : Bool) (s : SysState)
    (cpu old_freq new_freq : Nat) : SysState × List Ev :=
  let f : Freqs := ⟨cpu, old_freq, new_freq⟩
  let r1 := cpufreq_notify_transition constLoops s f TransPhase.pre
  let r2 := cpufreq_notify_transition constLoops r1.1 r1.2.1 TransPhase.post
  (r2.1, r1.2.2 ++ r2.2.2)

/-- Driver-side environment for the `get` path: `hasGet` whether
`cpufreq_driver->get` exists, `get` its result, `constLoops` the
CPUFREQ_CONST_LOOPS flag. -/
structure GetEnv where
  hasGet : Bool
  get : Nat → Nat
  constLoops : Bool

/-- Model of `__cpufreq_get(cpu)` (cpufreq.c:1662).  Returns 0 when the driver
has no `get`.  Otherwise asks the driver; when the answer and the
cached `policy->cur` are both non-zero, CONST_LOOPS is clear and the
two differ, it runs `cpufreq_out_of_sync` (synthetic PRECHANGE then
POSTCHANGE with old = `policy->cur`, new = the observed value) and
schedules the policy's deferred update work.  The source reads the
per-CPU policy pointer without a NULL check and would fault on an
absent policy inside the guard; callers hold a policy reference, so the
`none` branch (returning without the sync) is unreachable. -/
def cpufreq_get_inner (env : GetEnv) (s : SysState) (cpu : Nat) :
    Nat × SysState × List Ev :=
  if ¬ env.hasGet then (0, s, [])
  else
    let ret_freq := env.get cpu
    match s.table cpu with
    | none => (ret_freq, s, [])
    | some pid =>
      let p := s.store pid
      if ret_freq ≠ 0 ∧ p.cur ≠ 0 ∧ ¬ env.constLoops ∧
          ret_freq ≠ p.cur then
        let r := cpufreq_out_of_sync env.constLoops s cpu p.cur ret_freq
        (ret_freq, r.1, r.2 ++ [Ev.schedWork pid])
      else (ret_freq, s, [])

/-- Model of `cpufreq_update_policy(cpu)` (cpufreq.c:2177).  Pin the policy,
take the writer lock (which fails only when the CPU went offline in the
meantime), rebuild a proposed policy from `user_policy`, let the driver
report the live frequency (initializing `data->cur` when it was 0, or
running `cpufreq_out_of_sync` when it disagrees), run
`__cpufreq_set_policy`, unlock and unpin. -/
def cpufreq_update_policy (env : Env) (genv : GetEnv) (s : SysState)
    (cpu : Nat) : Int × SysState × List Ev :=
  let g := cpufreq_cpu_get s cpu
  match g.1 with
  | none => (-ENODEV, g.2, [])
  | some pid =>
    let s := g.2
    if ¬ s.online cpu then (-EINVAL, cpufreq_cpu_put s pid, [])
    else
      let data := s.store pid
      let policy := { data with
        min := data.user_policy.min
        max := data.user_policy.max
        policy := data.user_policy.policy
        governor := data.user_policy.governor }
      -- BIOS might change freq behind our back:
      -- ask driver for current freq and notify governors about a change
      let probe : SysState × Policy × List Ev :=
        if genv.hasGet then
          let cur := genv.get cpu
          let policy := { policy with cur := cur }
          if data.cur = 0 then
            ({ s with store := fun i =>
                if i = pid then { data with cur := cur } else s.store i },
              policy, [])
          else if data.cur ≠ cur then
            let r := cpufreq_out_of_sync genv.constLoops s cpu data.cur cur
            (r.1, policy, r.2)
          else (s, policy, [])
        else (s, policy, [])
      let s := probe.1
      let policy := probe.2.1
      let r := cpufreq_set_policy env (s.store pid) policy
      let s := { s with store := fun i =>
        if i = pid then r.data else s.store i }
      (r.ret, cpufreq_cpu_put s pid, probe.2.2 ++ r.tr)

/-- Model of `handle_update(work)` (cpufreq.c:1588): the work handler bound to
`policy->update` by INIT_WORK; it runs `cpufreq_update_policy` on the
policy's owner CPU. -/
def handle_update (env : Env) (genv : GetEnv) (s : SysState)
    (pid : Nat) : Int × SysState × List Ev :=
  cpufreq_update_policy env genv s ((s.store pid).cpu)

/-- Model of `cpufreq_get_policy(&out, cpu)` (cpufreq.c:2046): pin the policy at
`cpu`, copy it out by value, unpin.  Returns the copy, or `none` for
-EINVAL when the pin fails. -/
def cpufreq_get_policy (s : SysState) (cpu : Nat) :
    Option Policy × SysState :=
  let g := cpufreq_cpu_get s cpu
  match g.1 with
  | none => (none, g.2)
  | some pid => (some (g.2.store pid), cpufreq_cpu_put g.2 pid)

/-- Model of `store_scaling_min_freq` (the `store_one(scaling_min_freq, min)`
macro expansion, cpufreq.c:483/504).  `pid` is the policy object the
attribute surface hands to the store callback; `buf` is the parsed
decimal from `sscanf(buf, "%u", ...)` (`none` on parse failure).  After
`__cpufreq_set_policy` the source unconditionally writes
`policy->user_policy.min = new_policy.min` — also when the engine
returned an error — and then returns `ret ? ret : count`. -/
def store_scaling_min_freq (env : Env) (s : SysState) (pid : Nat)
    (buf : Option Nat) (count : Nat) : Int × SysState × List Ev :=
  let g := cpufreq_get_policy s ((s.store pid).cpu)
  match g.1 with
  | none => (-EINVAL, g.2, [])
  | some new_policy =>
    let s := g.2
    match buf with
    | none => (-EINVAL, s, [])
    | some v =>
      let new_policy := { new_policy with min := v }
      let r := cpufreq_set_policy env (s.store pid) new_policy
      let upd := { r.data with user_policy :=
        { r.data.user_policy with min := r.policy.min } }
      let s := { s with store := fun i => if i = pid then upd else s.store i }
      ((if r.ret ≠ 0 then r.ret else (count : Int)), s, r.tr)

/-- Model of `store_scaling_max_freq` (the `store_one(scaling_max_freq, max)`
macro expansion, cpufreq.c:483/505); see `store_scaling_min_freq`. -/
def store_scaling_max_freq (env : Env) (s : SysState) (pid : Nat)
    (buf : Option Nat) (count : Nat) : Int × SysState × List Ev :=
  let g := cpufreq_get_policy s ((s.store pid).cpu)
  match g.1 with
  | none => (-EINVAL, g.2, [])
  | some new_policy =>
    let s := g.2
    match buf with
    | none => (-EINVAL, s, [])
    | some v =>
      let new_policy := { new_policy with max := v }
      let r := cpufreq_set_policy env (s.store pid) new_policy
      let upd := { r.data with user_policy :=
        { r.data.user_policy with max := r.policy.max } }
      let s := { s with store := fun i => if i = pid then upd else s.store i }
      ((if r.ret ≠ 0 then r.ret else (count : Int)), s, r.tr)

/-- Model of `cpufreq_parse_governor(str, &policy, &governor)` (cpufreq.c:406).
For a setpolicy driver the names performance/powersave select the mode;
for a target driver the name is looked up in the registry (the
modprobe retry is folded into `findGovernor`).  `strnicmp` compares
case-insensitively, modelled by lowercasing the input.  Returns the
mutated `new_policy` fields, or `none` for -EINVAL. -/
def cpufreq_parse_governor (env : Env) (name : String) (np : Policy) :
    Option Policy :=
  if env.hasSetpolicy then
    if name.toLower = "performance" then
      some { np with policy := POLICY_PERFORMANCE }
    else if name.toLower = "powersave" then
      some { np with policy := POLICY_POWERSAVE }
    else none
  else if env.hasTarget then
    match env.findGovernor name with
    | some t => some { np with governor := some t }
    | none => none
  else none

/-- Model of `store_scaling_governor` (cpufreq.c:539).  `pid` is the policy the
attribute surface hands in; `present` the present-CPU list the
CONFIG_HOTPLUG_CPU loop walks; `buf` the token read by
`sscanf(buf, "%15s", ...)` (`none` on parse failure).  Per present CPU
the source copies that CPU's policy, parses the governor into the copy
and — on parse success — runs `__cpufreq_set_policy` against the
*calling* policy, then unconditionally refreshes
`user_policy.policy`/`user_policy.governor` from it; any per-CPU error
just skips to the next CPU (`continue`), and after the loop the
function returns `count` (success) regardless.  The loop body is the
named `store_scaling_governor_step` below. -/
def store_scaling_governor_step (env : Env) (pid : Nat)
    (str_governor : String) (s : SysState) (cpu : Nat) : SysState :=
  let g := cpufreq_get_policy s cpu
  match g.1 with
  | none => g.2
  | some np =>
    let s := g.2
    match cpufreq_parse_governor env str_governor np with
    | none => s
    | some np =>
      let r := cpufreq_set_policy env (s.store pid) np
      let upd := { r.data with user_policy :=
        { r.data.user_policy with
          policy := r.data.policy
          governor := r.data.governor } }
      { s with store := fun i => if i = pid then upd else s.store i }

/-- The loop wrapper over `store_scaling_governor_step`: parse the
token, then fold the per-present-CPU body, then return `count`. -/
def store_scaling_governor (env : Env) (s : SysState) (pid : Nat)
    (present : List Nat) (buf : Option String) (count : Nat) :
    Int × SysState :=
  match buf with
  | none => (-EINVAL, s)
  | some name =>
    ((count : Int),
      present.foldl (store_scaling_governor_step env pid (name.take 15)) s)

/-- Environment for the attachment path.  Allocation outcomes
(`kzalloc` and the two cpumask allocations), the driver `init` callback
(fills bounds, `cpuinfo`, possibly widens `cpus`, sets `cur`), whether
the relock in the managed branch succeeds, the default governor
compiled into the kernel, and the sysfs return codes (`kobject_init_and_add`,
attribute-file creation, and per-CPU `sysfs_create_link`; 0 means
success), the sysfs layer itself being outside the embedding. -/
structure AddEnv where
  env : Env
  kzallocOk : Bool
  allocCpumaskOk : Bool
  zallocCpumaskOk : Bool
  driverInit : Policy → Int × Policy
  defaultGov : Governor
  relockOk : Bool
  kobjectAddRet : Int
  createFileRet : Int
  symlinkRet : Nat → Int

/-- The CONFIG_SMP scan of `cpufreq_add_dev_policy` (cpufreq.c:1101)
over `policy->cpus` (`js`): the first sibling `j ≠ cpu` whose
`cpufreq_cpu_get` succeeds is the managed case — repoint
`policy_cpu[cpu]` at the managed owner, relock (a relock failure exits
with -EBUSY after `driver->exit` and dropping the managed reference),
copy the cpumask onto the managed policy, publish `table[cpu]`, then
create the symlink: on success return 1 keeping the managed reference,
on failure drop it and return the sysfs error (after `driver->exit`).
No managed sibling: return 0. -/
def cpufreq_add_dev_policy (aenv : AddEnv) (s : SysState) (cpu : Nat)
    (policy : Policy) : List Nat → Int × SysState
  | [] => (0, s)
  | j :: js =>
    if cpu = j then cpufreq_add_dev_policy aenv s cpu policy js
    else
      let g := cpufreq_cpu_get s j
      match g.1 with
      | none => cpufreq_add_dev_policy aenv g.2 cpu policy js
      | some mpid =>
        let s := g.2
        let s := { s with policyCpu := fun c =>
          if c = cpu then (s.store mpid).cpu else s.policyCpu c }
        if ¬ aenv.relockOk then
          (-EBUSY, cpufreq_cpu_put s mpid)
        else
          let widened := { s.store mpid with cpus := policy.cpus }
          let s := { s with
            store := fun i => if i = mpid then widened else s.store i
            table := fun c => if c = cpu then some mpid else s.table c }
          if aenv.symlinkRet cpu = 0 then
            (1, s)
          else
            (aenv.symlinkRet cpu, cpufreq_cpu_put s mpid)

/-- Model of `cpufreq_add_dev_symlink(cpu, policy)` (cpufreq.c:1183): for each
online `j ≠ cpu` in the affinity mask, take an extra policy reference
(`cpufreq_cpu_get(cpu)`) and create the sibling's symlink; a sysfs
failure drops that one reference and aborts with the error (earlier
references are kept — they are dropped on removal). -/
def cpufreq_add_dev_symlink (aenv : AddEnv) (s : SysState) (cpu : Nat) :
    List Nat → Int × SysState
  | [] => (0, s)
  | j :: js =>
    if j = cpu then cpufreq_add_dev_symlink aenv s cpu js
    else if ¬ s.online j then cpufreq_add_dev_symlink aenv s cpu js
    else
      let g := cpufreq_cpu_get s cpu
      let s := g.2
      if aenv.symlinkRet j = 0 then
        cpufreq_add_dev_symlink aenv s cpu js
      else
        match g.1 with
        | some mpid => (aenv.symlinkRet j, cpufreq_cpu_put s mpid)
        | none => (aenv.symlinkRet j, s)

/-- Model of `cpufreq_add_dev_interface(cpu, policy, sys_dev)` (cpufreq.c:1211):
publish the kobject and attribute files (failures return the sysfs
error after dropping the kobject), publish `table`/`policy_cpu` for
every online CPU of the affinity mask, create the sibling symlinks,
then run the initial `__cpufreq_set_policy` on a copy (with
`policy->governor` cleared first so the governor start sequence runs)
and refresh `user_policy.policy`/`user_policy.governor`; a set_policy
failure is returned after `driver->exit`. -/
def cpufreq_add_dev_interface (aenv : AddEnv) (s : SysState)
    (cpu pid : Nat) (policy : Policy) : Int × SysState :=
  if aenv.kobjectAddRet ≠ 0 then (aenv.kobjectAddRet, s)
  else
    let s := { s with kobjRefs := fun i =>
      if i = pid then 1 else s.kobjRefs i }
    if aenv.createFileRet ≠ 0 then
      (aenv.createFileRet,
        { s with kobjRefs := fun i =>
          if i = pid then 0 else s.kobjRefs i })
    else
      let s := { s with
        store := fun i => if i = pid then policy else s.store i
        table := fun c =>
          if c ∈ policy.cpus ∧ s.online c then some pid else s.table c
        policyCpu := fun c =>
          if c ∈ policy.cpus ∧ s.online c then policy.cpu
          else s.policyCpu c }
      let link := cpufreq_add_dev_symlink aenv s cpu policy.cpus
      if link.1 ≠ 0 then
        (link.1,
          { link.2 with kobjRefs := fun i =>
            if i = pid then (link.2.kobjRefs pid) - 1
            else link.2.kobjRefs i })
      else
        let s := link.2
        let new_policy := s.store pid
        let cleared := { s.store pid with governor := none }
        let s := { s with store := fun i =>
          if i = pid then cleared else s.store i }
        let r := cpufreq_set_policy aenv.env (s.store pid) new_policy
        let upd := { r.data with user_policy :=
          { r.data.user_policy with
            policy := r.data.policy
            governor := r.data.governor } }
        let s := { s with store := fun i =>
          if i = pid then upd else s.store i }
        (r.ret, s)

/-- Model of `cpufreq_add_dev(sys_dev)` (cpufreq.c:1296).  An offline CPU and a
CPU whose policy pointer is already set both return 0 without touching
any state (the latter via a balanced `cpufreq_cpu_get`/`put` pair).
Otherwise: pin the driver module, allocate the policy (allocation
failures return -ENOMEM), set `policy_cpu`, inherit a sibling governor
when an online sibling's policy lists this CPU in `related_cpus`, else
install the default governor (the source's `f (!found)` typo is read as
the evidently intended `if`), run `driver->init` (failure discards the
policy), record `user_limits`, fire the CPUFREQ_START notifier, then
`cpufreq_add_dev_policy` (a positive result means managed-and-linked:
return 0) and `cpufreq_add_dev_interface`; an interface failure clears
the table entries for the whole affinity mask and discards the
policy. -/
def cpufreq_add_dev (aenv : AddEnv) (s : SysState) (cpu : Nat) :
    Int × SysState :=
  if ¬ s.online cpu then (0, s)
  else
    let g := cpufreq_cpu_get s cpu
    match g.1 with
    | some pid => (0, cpufreq_cpu_put g.2 pid)
    | none =>
      let s := g.2
      if ¬ s.ownerAlive then (-EINVAL, s)
      else
        let s := { s with modRefs := s.modRefs + 1 }
        if ¬ (aenv.kzallocOk ∧ aenv.allocCpumaskOk ∧
              aenv.zallocCpumaskOk) then
          (-ENOMEM, { s with modRefs := s.modRefs - 1 })
        else
          let pid := s.nextId
          let s := { s with nextId := s.nextId + 1 }
          let policy : Policy :=
            { cpu := cpu, cpus := [cpu], related_cpus := []
              min := 0, max := 0, cur := 0, policy := 0
              governor := none, cpuinfo := ⟨0, 0, 0⟩
              user_policy := ⟨0, 0, 0, none⟩ }
          let s := { s with policyCpu := fun c =>
            if c = cpu then cpu else s.policyCpu c }
          let sibGov := (List.range s.nrCpuIds).findSome? (fun j =>
            if s.online j then
              match s.table j with
              | some q =>
                if (s.store q).governor ≠ none ∧
                    cpu ∈ (s.store q).related_cpus then
                  (s.store q).governor
                else none
              | none => none
            else none)
          let policy := { policy with governor :=
            match sibGov with
            | some gv => some gv
            | none => some aenv.defaultGov }
          let ini := aenv.driverInit policy
          if ini.1 ≠ 0 then
            (ini.1, { s with modRefs := s.modRefs - 1 })
          else
            let policy := ini.2
            let policy := { policy with user_policy :=
              { policy.user_policy with
                min := policy.min, max := policy.max } }
            let dp := cpufreq_add_dev_policy aenv s cpu policy policy.cpus
            if dp.1 ≠ 0 then
              (if dp.1 > 0 then 0 else dp.1,
                { dp.2 with modRefs := dp.2.modRefs - 1 })
            else
              let di := cpufreq_add_dev_interface aenv dp.2 cpu pid policy
              if di.1 ≠ 0 then
                (di.1,
                  { di.2 with
                    table := fun c =>
                      if c ∈ policy.cpus then none else di.2.table c
                    modRefs := di.2.modRefs - 1 })
              else
                (0, { di.2 with modRefs := di.2.modRefs - 1 })

/-! Concrete fixtures used by witnesses and counterexamples. -/

/-- A governor without a latency bound ("ondemand"-like). -/
def exGov1 : Governor := ⟨1, "ondemand", 0⟩

/-- A second governor without a latency bound. -/
def exGov2 : Governor := ⟨2, "conservative", 0⟩

/-- The scenario-C governor: `max_latency` of 1 µs (1000 ns). -/
def strictGov : Governor := ⟨3, "strict", 1000⟩

/-- The compiled-in performance governor. -/
def perfGovEx : Governor := ⟨100, "performance", 0⟩

/-- Benign environment: identity driver `verify`, identity notifier
subscribers, a target-style driver, QoS wide open, every governor
callback succeeding. -/
def exEnv : Env :=
  { qosMin := 0
    qosMax := 2000000
    verify := fun p => (0, p)
    adjust := fun p => p
    incompat := fun p => p
    notifyChain := fun p => p
    hasSetpolicy := false
    setpolicy := fun _ => 0
    hasTarget := true
    govCall := fun _ _ => 0
    perfGov := some perfGovEx
    findGovernor := fun _ => none }

/-- Variant of `exEnv` with the start of `exGov2` failing (for the rollback case). -/
def exEnvStartFail : Env :=
  { exEnv with govCall := fun g e =>
      if g.id = 2 ∧ e = GovEvent.start then -EINVAL else 0 }

/-- A policy with hardware window 200000–2000000 kHz, 10 µs transition
latency, governed by `exGov1`. -/
def exPolicy : Policy :=
  { cpu := 0, cpus := [0], related_cpus := [0]
    min := 200000, max := 2000000, cur := 1000000, policy := 0
    governor := some exGov1
    cpuinfo := ⟨200000, 2000000, 10000⟩
    user_policy := ⟨200000, 2000000, 0, some exGov1⟩ }

/-- As `exPolicy` but with a user window capped at 1000000 kHz. -/
def exPolicyNarrow : Policy :=
  { exPolicy with max := 1000000
                  user_policy := ⟨200000, 1000000, 0, some exGov1⟩ }

/-- A two-CPU state whose CPU 0 carries `exPolicy` as object 0. -/
def exState : SysState :=
  { nrCpuIds := 2
    online := fun c => c < 2
    driverPresent := true
    ownerAlive := true
    modRefs := 1
    table := fun c => if c = 0 then some 0 else none
    store := fun _ => exPolicy
    policyCpu := fun _ => 0
    kobjRefs := fun _ => 1
    nextId := 1 }

/-- Variant of `exState` carrying `exPolicyNarrow` instead. -/
def exStateNarrow : SysState :=
  { exState with store := fun _ => exPolicyNarrow }

/-- Driver `get` reporting 0 (failed read) with CONST_LOOPS clear. -/
def exGetEnvZero : GetEnv := ⟨true, fun _ => 0, false⟩

/-- Driver `get` reporting 800000 kHz with CONST_LOOPS clear. -/
def exGetEnvSync : GetEnv := ⟨true, fun _ => 800000, false⟩

/-- Attachment environment: all allocations succeed, sysfs succeeds,
driver `init` fills the `exPolicy` hardware window. -/
def exAddEnv : AddEnv :=
  { env := exEnv
    kzallocOk := true
    allocCpumaskOk := true
    zallocCpumaskOk := true
    driverInit := fun p =>
      (0, { p with min := 200000, max := 2000000, cur := 1000000
                   cpuinfo := ⟨200000, 2000000, 10000⟩ })
    defaultGov := exGov1
    relockOk := true
    kobjectAddRet := 0
    createFileRet := 0
    symlinkRet := fun _ => 0 }

/-! Helper lemmas (shared; not tied to any single claim). -/

/-- Helper: `__cpufreq_governor` never touches the dispatched policy's
`min`/`max` (it can only swap the governor reference for the fallback). -/
theorem cpufreq_governor_preserves_bounds (env : Env) (p : Policy)
    (e : GovEvent) :
    ((cpufreq_governor env p e).2.1).min = p.min ∧
      ((cpufreq_governor env p e).2.1).max = p.max := by
  unfold cpufreq_governor
  rcases hg : p.governor with _ | g <;> simp
  split
  · rcases hp : env.perfGov with _ | gov <;> simp
  · simp

/-- A successful `cpufreq_cpu_get` is exactly undone by
`cpufreq_cpu_put` of the returned policy id. -/
theorem cpu_get_put_cancel (s : SysState) (cpu pid : Nat)
    (hlt : cpu < s.nrCpuIds) (hdrv : s.driverPresent = true)
    (halive : s.ownerAlive = true) (htab : s.table cpu = some pid) :
    cpufreq_cpu_get s cpu =
      (some pid,
        { s with
          modRefs := s.modRefs + 1
          kobjRefs := fun i =>
            if i = pid then s.kobjRefs pid + 1 else s.kobjRefs i }) ∧
    cpufreq_cpu_put (cpufreq_cpu_get s cpu).2 pid = s := by
  have hget : cpufreq_cpu_get s cpu =
      (some pid,
        { s with
          modRefs := s.modRefs + 1
          kobjRefs := fun i =>
            if i = pid then s.kobjRefs pid + 1 else s.kobjRefs i }) := by
    unfold cpufreq_cpu_get
    rw [if_neg (by omega), if_neg (by simp [hdrv]), if_neg (by simp [halive])]
    simp [htab]
  refine ⟨hget, ?_⟩
  rw [hget]
  unfold cpufreq_cpu_put
  cases s with
  | mk nrCpuIds online driverPresent ownerAlive modRefs table store policyCpu kobjRefs nextId =>
    simp only [SysState.mk.injEq, Nat.add_sub_cancel, true_and, and_true]
    funext i
    by_cases hi : i = pid <;> simp [hi]

/-- C10: on every return from `__cpufreq_set_policy` — success and every
error path alike — the caller's proposed record leaves with its `min`
and `max` restored to exactly the values it came in with (`pmin`,
`pmax`); the engine's internal clamping never leaks into the proposed
copy, even though the committed `data.min`/`data.max` may differ. -/
theorem set_policy_restores_proposed_bounds (env : Env)
    (data policy : Policy) :
    (cpufreq_set_policy env data policy).policy.min = policy.min ∧
      (cpufreq_set_policy env data policy).policy.max = policy.max := by
  unfold cpufreq_set_policy
  dsimp only
  repeat' split
  all_goals exact ⟨rfl, rfl⟩

/-- C2: whenever the QoS-clamped window violates the user window
(`proposed.min > user_policy.max` or `proposed.max < user_policy.min`),
`__cpufreq_set_policy` returns -EINVAL and performs no commit: the
current policy `data` is returned bit-for-bit unchanged (so `min`,
`max`, `policy` and `governor` in particular), and the empty callback
trace shows that neither `driver->verify`, the notifier fan-outs, the
governor, nor `driver->setpolicy` were invoked. -/
theorem set_policy_rejects_out_of_range (env : Env) (data policy : Policy)
    (hrange :
      Nat.max policy.min (Nat.min env.qosMin data.user_policy.max) >
          data.user_policy.max ∨
        Nat.min policy.max (Nat.max env.qosMax data.user_policy.min) <
          data.user_policy.min) :
    (cpufreq_set_policy env data policy).ret = -EINVAL ∧
      (cpufreq_set_policy env data policy).data = data ∧
      (cpufreq_set_policy env data policy).tr = [] := by
  unfold cpufreq_set_policy
  dsimp only
  rw [if_pos hrange]
  exact ⟨rfl, rfl, rfl⟩

/-- Witness for C2 at a concrete input: proposing min = 1500000 against
the user ceiling 1000000 is rejected without any state change. -/
theorem set_policy_rejects_out_of_range_witness :
    (Nat.max 1500000
        (Nat.min exEnv.qosMin exPolicyNarrow.user_policy.max) >
          exPolicyNarrow.user_policy.max ∨
      Nat.min exPolicyNarrow.max
          (Nat.max exEnv.qosMax exPolicyNarrow.user_policy.min) <
        exPolicyNarrow.user_policy.min) ∧
    ((cpufreq_set_policy exEnv exPolicyNarrow
        { exPolicyNarrow with min := 1500000 }).ret = -EINVAL ∧
      (cpufreq_set_policy exEnv exPolicyNarrow
        { exPolicyNarrow with min := 1500000 }).data = exPolicyNarrow ∧
      (cpufreq_set_policy exEnv exPolicyNarrow
        { exPolicyNarrow with min := 1500000 }).tr = []) :=
  ⟨by decide,
    set_policy_rejects_out_of_range exEnv exPolicyNarrow
      { exPolicyNarrow with min := 1500000 } (by decide)⟩

/-- Projection form of `cpufreq_governor_preserves_bounds` for `min`. -/
theorem cpufreq_governor_min (env : Env) (p : Policy) (e : GovEvent) :
    ((cpufreq_governor env p e).2.1).min = p.min :=
  (cpufreq_governor_preserves_bounds env p e).1

/-- Projection form of `cpufreq_governor_preserves_bounds` for `max`. -/
theorem cpufreq_governor_max (env : Env) (p : Policy) (e : GovEvent) :
    ((cpufreq_governor env p e).2.1).max = p.max :=
  (cpufreq_governor_preserves_bounds env p e).2

/-- C1: with the driver `verify` and the notifier subscribers leaving the
proposed policy unchanged (so that no third party moves the bounds
mid-flight), the window `__cpufreq_set_policy` carries through its
checks and commits onto `data` is exactly
`min = max(pmin, min(qos_min, user.max))` and
`max = min(pmax, max(qos_max, user.min))`: each QoS bound is clamped
against the user-requested opposite bound before being combined with
the proposed bound.  (Hypothesis `hrange`: this window passes the
user-window check — the rejecting case is claim C2.) -/
theorem set_policy_qos_clamp (env : Env) (data policy : Policy)
    (hv : ∀ p, env.verify p = (0, p))
    (ha : ∀ p, env.adjust p = p)
    (hi : ∀ p, env.incompat p = p)
    (hn : ∀ p, env.notifyChain p = p)
    (hrange :
      ¬ (Nat.max policy.min (Nat.min env.qosMin data.user_policy.max) >
            data.user_policy.max ∨
          Nat.min policy.max (Nat.max env.qosMax data.user_policy.min) <
            data.user_policy.min)) :
    (cpufreq_set_policy env data policy).data.min =
        Nat.max policy.min (Nat.min env.qosMin data.user_policy.max) ∧
      (cpufreq_set_policy env data policy).data.max =
        Nat.min policy.max (Nat.max env.qosMax data.user_policy.min) := by
  unfold cpufreq_set_policy
  dsimp only
  rw [if_neg hrange]
  simp only [hv, ha, hi, hn]
  repeat' split
  all_goals try exact absurd rfl (by assumption)
  all_goals
    simp [cpufreq_governor_min, cpufreq_governor_max]

/-- Witness for C1: scenario A — proposing max = 1400000 on the wide
policy commits exactly the QoS-clamped window (200000, 1400000). -/
theorem set_policy_qos_clamp_witness :
    (¬ (Nat.max exPolicy.min
          (Nat.min exEnv.qosMin exPolicy.user_policy.max) >
            exPolicy.user_policy.max ∨
        Nat.min 1400000
            (Nat.max exEnv.qosMax exPolicy.user_policy.min) <
          exPolicy.user_policy.min)) ∧
    ((cpufreq_set_policy exEnv exPolicy
        { exPolicy with max := 1400000 }).data.min =
      Nat.max exPolicy.min
        (Nat.min exEnv.qosMin exPolicy.user_policy.max) ∧
      (cpufreq_set_policy exEnv exPolicy
        { exPolicy with max := 1400000 }).data.max =
      Nat.min 1400000
        (Nat.max exEnv.qosMax exPolicy.user_policy.min)) :=
  ⟨by decide,
    set_policy_qos_clamp exEnv exPolicy { exPolicy with max := 1400000 }
      (fun _ => rfl) (fun _ => rfl) (fun _ => rfl) (fun _ => rfl)
      (by decide)⟩

/-- C4: on the target-driver branch with a proposed governor `ng`
different from the current governor `og` (both within their declared
latency bounds, with benign verify/notifier subscribers and the QoS
window passing the user check), `__cpufreq_set_policy` stops the old
governor, installs the new reference and starts it; if the start
succeeds the switch commits (`data.governor = ng`, GOV_LIMITS follows),
and if the start fails the engine reinstalls and restarts the old
governor and returns -EINVAL. -/
theorem set_policy_governor_switch (env : Env) (data policy : Policy)
    (og ng : Governor)
    (hv : ∀ p, env.verify p = (0, p))
    (ha : ∀ p, env.adjust p = p)
    (hi : ∀ p, env.incompat p = p)
    (hn : ∀ p, env.notifyChain p = p)
    (hsp : env.hasSetpolicy = false)
    (hog : data.governor = some og)
    (hng : policy.governor = some ng)
    (hne : ng ≠ og)
    (hrange :
      ¬ (Nat.max policy.min (Nat.min env.qosMin data.user_policy.max) >
            data.user_policy.max ∨
          Nat.min policy.max (Nat.max env.qosMax data.user_policy.min) <
            data.user_policy.min))
    (hlog : og.max_transition_latency = 0 ∨
      data.cpuinfo.transition_latency ≤ og.max_transition_latency)
    (hlng : ng.max_transition_latency = 0 ∨
      data.cpuinfo.transition_latency ≤ ng.max_transition_latency) :
    (env.govCall ng GovEvent.start = 0 →
      (cpufreq_set_policy env data policy).ret = 0 ∧
        (cpufreq_set_policy env data policy).data.governor = some ng ∧
        (cpufreq_set_policy env data policy).tr =
          [Ev.verifyEv, Ev.adjustEv, Ev.incompatEv, Ev.verifyEv,
           Ev.notifyEv, Ev.govEv og GovEvent.stop,
           Ev.govEv ng GovEvent.start, Ev.govEv ng GovEvent.limits]) ∧
    (env.govCall ng GovEvent.start ≠ 0 →
      (cpufreq_set_policy env data policy).ret = -EINVAL ∧
        (cpufreq_set_policy env data policy).data.governor = some og ∧
        (cpufreq_set_policy env data policy).tr =
          [Ev.verifyEv, Ev.adjustEv, Ev.incompatEv, Ev.verifyEv,
           Ev.notifyEv, Ev.govEv og GovEvent.stop,
           Ev.govEv ng GovEvent.start, Ev.govEv og GovEvent.start]) := by
  have hguard_og : ¬ (og.max_transition_latency ≠ 0 ∧
      data.cpuinfo.transition_latency > og.max_transition_latency) := by
    rcases hlog with h | h
    · simp [h]
    · omega
  have hguard_ng : ¬ (ng.max_transition_latency ≠ 0 ∧
      data.cpuinfo.transition_latency > ng.max_transition_latency) := by
    rcases hlng with h | h
    · simp [h]
    · omega
  constructor <;> intro hstart <;>
  · unfold cpufreq_set_policy cpufreq_governor
    dsimp only
    rw [if_neg hrange]
    simp only [hv, ha, hi, hn, hog, hng, hsp]
    simp [hne, hguard_og, hguard_ng, hstart]

/-- Witness for C4 at a concrete input: switching from `exGov1` to
`exGov2` under an environment whose start of `exGov2` fails rolls back
to `exGov1` and surfaces -EINVAL. -/
theorem set_policy_governor_switch_witness :
    (cpufreq_set_policy exEnvStartFail exPolicy
        { exPolicy with governor := some exGov2 }).ret = -EINVAL ∧
      (cpufreq_set_policy exEnvStartFail exPolicy
        { exPolicy with governor := some exGov2 }).data.governor =
        some exGov1 ∧
      (cpufreq_set_policy exEnvStartFail exPolicy
        { exPolicy with governor := some exGov2 }).tr =
        [Ev.verifyEv, Ev.adjustEv, Ev.incompatEv, Ev.verifyEv,
         Ev.notifyEv, Ev.govEv exGov1 GovEvent.stop,
         Ev.govEv exGov2 GovEvent.start, Ev.govEv exGov1 GovEvent.start] :=
  (set_policy_governor_switch exEnvStartFail exPolicy
      { exPolicy with governor := some exGov2 } exGov1 exGov2
      (fun _ => rfl) (fun _ => rfl) (fun _ => rfl) (fun _ => rfl)
      rfl rfl rfl (by decide) (by decide) (by decide) (by decide)).2
    (by decide)

/-- C5: when a governor event is dispatched for a governor `g` whose
non-zero `max_transition_latency` is smaller than the policy's hardware
`transition_latency`, `__cpufreq_governor` replaces the policy's
governor with the compiled-in performance governor and proceeds with
the event; with no fallback compiled in it returns -EINVAL instead.
The last conjunct is the sysfs face of the fallback: a parsed write to
`scaling_governor` always surfaces success (`count`), in particular for
such a too-strict governor's name. -/
theorem governor_latency_fallback (env : Env) (policy : Policy)
    (g : Governor) (event : GovEvent)
    (hg : policy.governor = some g)
    (hml : g.max_transition_latency ≠ 0)
    (hlat : policy.cpuinfo.transition_latency > g.max_transition_latency) :
    (∀ gov, env.perfGov = some gov →
      cpufreq_governor env policy event =
        (env.govCall gov event, { policy with governor := some gov },
          [Ev.govEv gov event])) ∧
    (env.perfGov = none →
      cpufreq_governor env policy event = (-EINVAL, policy, [])) ∧
    (∀ s pid present name count,
      (store_scaling_governor env s pid present (some name) count).1 =
        count) := by
  refine ⟨?_, ?_, ?_⟩
  · intro gov hgov
    unfold cpufreq_governor
    rw [hg]
    dsimp only
    rw [if_pos ⟨hml, hlat⟩, hgov]
  · intro hgov
    unfold cpufreq_governor
    rw [hg]
    dsimp only
    rw [if_pos ⟨hml, hlat⟩, hgov]
  · intro s pid present name count
    unfold store_scaling_governor
    rfl

/-- Witness for C5: dispatching Start for the `strict` governor
(1 µs bound) on a 10 µs-latency policy falls back to the performance
governor, and the sysfs write of its name surfaces success. -/
theorem governor_latency_fallback_witness :
    cpufreq_governor exEnv { exPolicy with governor := some strictGov }
        GovEvent.start =
      (exEnv.govCall perfGovEx GovEvent.start,
        { exPolicy with governor := some perfGovEx },
        [Ev.govEv perfGovEx GovEvent.start]) ∧
    (store_scaling_governor exEnv exState 0 [0, 1] (some "strict") 6).1 =
      6 :=
  ⟨((governor_latency_fallback exEnv
        { exPolicy with governor := some strictGov } strictGov
        GovEvent.start rfl (by decide) (by decide)).1 perfGovEx rfl),
    ((governor_latency_fallback exEnv
        { exPolicy with governor := some strictGov } strictGov
        GovEvent.start rfl (by decide) (by decide)).2.2 exState 0 [0, 1]
        "strict" 6)⟩

/-- C6: after `cpufreq_notify_transition` delivers a POSTCHANGE with
record `{cpu, old, new}`, the policy attached at that CPU has
`cur = new` exactly when it exists and its owner CPU equals the event's
CPU (and then only its `cur` field changes, with the table and every
other policy object untouched); for a non-owner CPU or an absent
policy, no policy's `cur` is modified. -/
theorem notify_post_updates_cur (constLoops : Bool) (s : SysState)
    (f : Freqs) :
    (∀ pid, s.table f.cpu = some pid → (s.store pid).cpu = f.cpu →
      (((cpufreq_notify_transition constLoops s f
          TransPhase.post).1).store pid) =
        { s.store pid with cur := f.new } ∧
      ((cpufreq_notify_transition constLoops s f
          TransPhase.post).1).table = s.table ∧
      (∀ q, q ≠ pid →
        ((cpufreq_notify_transition constLoops s f
            TransPhase.post).1).store q = s.store q)) ∧
    (∀ pid, s.table f.cpu = some pid → (s.store pid).cpu ≠ f.cpu →
      (cpufreq_notify_transition constLoops s f TransPhase.post).1 = s) ∧
    (s.table f.cpu = none →
      (cpufreq_notify_transition constLoops s f TransPhase.post).1 = s) := by
  refine ⟨?_, ?_, ?_⟩
  · intro pid hpid howner
    unfold cpufreq_notify_transition
    dsimp only
    rw [hpid]
    dsimp only
    rw [if_pos howner]
    refine ⟨by simp, rfl, ?_⟩
    intro q hq
    simp [hq]
  · intro pid hpid howner
    unfold cpufreq_notify_transition
    dsimp only
    rw [hpid]
    dsimp only
    rw [if_neg howner]
  · intro hpid
    unfold cpufreq_notify_transition
    dsimp only
    rw [hpid]

/-- Witness for C6: a POSTCHANGE for CPU 0 (owner of the attached
policy) sets `cur` to the event's `new`. -/
theorem notify_post_updates_cur_witness :
    ((cpufreq_notify_transition false exState
        ⟨0, 1000000, 800000⟩ TransPhase.post).1).store 0 =
      { exPolicy with cur := 800000 } :=
  (((notify_post_updates_cur false exState
      ⟨0, 1000000, 800000⟩).1) 0 rfl rfl).1

/-- Counterexample to C8 as stated: with `current_khz = 1000000`,
CONST_LOOPS clear and the driver's `get` reporting 0, the observed
result differs from `current_khz`, yet `__cpufreq_get` synthesizes no
PRECHANGE/POSTCHANGE pair and schedules no update work (the source
additionally requires both frequencies to be non-zero). -/
theorem get_out_of_sync_zero_counterexample :
    exGetEnvZero.constLoops = false ∧
    exGetEnvZero.get 0 ≠ exPolicy.cur ∧
    (cpufreq_get_inner exGetEnvZero exState 0).2.2 = [] ∧
    (cpufreq_get_inner exGetEnvZero exState 0).2.1 = exState :=
  ⟨rfl, by decide, rfl, rfl⟩

/-- C8 (amended): when `__cpufreq_get(cpu)` observes a non-zero
frequency that differs from the policy's non-zero `current_khz` while
CONST_LOOPS is clear, it synthesizes exactly one PRECHANGE followed by
one POSTCHANGE carrying `old = current_khz`, `new =` the observed
frequency, and enqueues the policy's deferred update work (bound to
`handle_update`, which runs `cpufreq_update_policy` on the policy's
owner CPU), returning the observed frequency. -/
theorem get_out_of_sync_amended (genv : GetEnv) (s : SysState)
    (cpu pid : Nat)
    (hpid : s.table cpu = some pid)
    (hget : genv.hasGet = true)
    (hobs : genv.get cpu ≠ 0)
    (hcur : (s.store pid).cur ≠ 0)
    (hcl : genv.constLoops = false)
    (hne : genv.get cpu ≠ (s.store pid).cur) :
    (cpufreq_get_inner genv s cpu).1 = genv.get cpu ∧
    (cpufreq_get_inner genv s cpu).2.2 =
      [Ev.preChange cpu ((s.store pid).cur) (genv.get cpu),
       Ev.postChange cpu ((s.store pid).cur) (genv.get cpu),
       Ev.schedWork pid] := by
  have hdrift : ¬ ((s.store pid).cpu = cpu ∧ (s.store pid).cur ≠ 0 ∧
      (s.store pid).cur ≠ (s.store pid).cur) := by
    rintro ⟨-, -, h⟩
    exact h rfl
  unfold cpufreq_get_inner cpufreq_out_of_sync cpufreq_notify_transition
  simp [hget, hcl, hpid, hobs, hcur, hne, hdrift]
  split <;> simp

/-- Witness for the amended C8: `cur = 1000000`, driver reports 800000,
CONST_LOOPS clear — one synthetic PRECHANGE(1000000→800000), one
POSTCHANGE, and the update work is scheduled. -/
theorem get_out_of_sync_amended_witness :
    (cpufreq_get_inner exGetEnvSync exState 0).1 = exGetEnvSync.get 0 ∧
    (cpufreq_get_inner exGetEnvSync exState 0).2.2 =
      [Ev.preChange 0 ((exState.store 0).cur) (exGetEnvSync.get 0),
       Ev.postChange 0 ((exState.store 0).cur) (exGetEnvSync.get 0),
       Ev.schedWork 0] :=
  get_out_of_sync_amended exGetEnvSync exState 0 0 rfl rfl
    (by decide) (by decide) rfl (by decide)

/-- C9: `cpufreq_cpu_get(cpu)` fails (returns NULL) whenever the CPU
index is out of range, no driver is registered, or no policy is
attached at that CPU; every successful return has taken exactly one
policy (kobject) reference and one driver-module reference — and
touched nothing else — and `cpufreq_cpu_put` releases exactly those
two, restoring the state bit-for-bit. -/
theorem cpu_get_ref_discipline (s : SysState) (cpu : Nat) :
    ((cpu ≥ s.nrCpuIds ∨ s.driverPresent = false ∨ s.table cpu = none) →
      (cpufreq_cpu_get s cpu).1 = none) ∧
    (∀ pid, (cpufreq_cpu_get s cpu).1 = some pid →
      (cpufreq_cpu_get s cpu).2.modRefs = s.modRefs + 1 ∧
        (cpufreq_cpu_get s cpu).2.kobjRefs pid = s.kobjRefs pid + 1 ∧
        (∀ q, q ≠ pid →
          (cpufreq_cpu_get s cpu).2.kobjRefs q = s.kobjRefs q) ∧
        (cpufreq_cpu_get s cpu).2.table = s.table ∧
        (cpufreq_cpu_get s cpu).2.store = s.store ∧
        s.table cpu = some pid ∧
        cpufreq_cpu_put (cpufreq_cpu_get s cpu).2 pid = s) := by
  constructor
  · intro h
    unfold cpufreq_cpu_get
    split
    · rfl
    next hlt =>
      split
      · rfl
      next hdrv =>
        split
        · rfl
        next halive =>
          rcases h with h | h | h
          · exact absurd h hlt
          · exact absurd (by simpa using hdrv) (by simp [h])
          · simp [h]
  · intro pid hpid
    have hcond : cpu < s.nrCpuIds ∧ s.driverPresent = true ∧
        s.ownerAlive = true ∧ s.table cpu = some pid := by
      unfold cpufreq_cpu_get at hpid
      by_cases h1 : cpu ≥ s.nrCpuIds
      · rw [if_pos h1] at hpid
        exact absurd hpid (by simp)
      rw [if_neg h1] at hpid
      by_cases h2 : s.driverPresent = true
      case neg =>
        rw [if_pos (by simpa using h2)] at hpid
        exact absurd hpid (by simp)
      rw [if_neg (by simp [h2])] at hpid
      by_cases h3 : s.ownerAlive = true
      case neg =>
        rw [if_pos (by simpa using h3)] at hpid
        exact absurd hpid (by simp)
      rw [if_neg (by simp [h3])] at hpid
      rcases htab : s.table cpu with _ | pid'
      · dsimp only at hpid
        rw [htab] at hpid
        exact absurd hpid (by simp)
      · dsimp only at hpid
        rw [htab] at hpid
        dsimp only at hpid
        exact ⟨by omega, h2, h3, hpid⟩
    obtain ⟨hlt, hdrv, halive, htab⟩ := hcond
    have hc := cpu_get_put_cancel s cpu pid hlt hdrv halive htab
    refine ⟨by rw [hc.1], by rw [hc.1]; simp, ?_, by rw [hc.1],
      by rw [hc.1], htab, hc.2⟩
    intro q hq
    rw [hc.1]
    simp [hq]

/-- Witness for C9: a successful get on CPU 0 of the example state
takes the two references and `put` restores the state. -/
theorem cpu_get_ref_discipline_witness :
    (cpufreq_cpu_get exState 0).2.modRefs = exState.modRefs + 1 ∧
      (cpufreq_cpu_get exState 0).2.kobjRefs 0 = exState.kobjRefs 0 + 1 ∧
      (∀ q, q ≠ 0 →
        (cpufreq_cpu_get exState 0).2.kobjRefs q = exState.kobjRefs q) ∧
      (cpufreq_cpu_get exState 0).2.table = exState.table ∧
      (cpufreq_cpu_get exState 0).2.store = exState.store ∧
      exState.table 0 = some 0 ∧
      cpufreq_cpu_put (cpufreq_cpu_get exState 0).2 0 = exState :=
  (cpu_get_ref_discipline exState 0).2 0 rfl

/-- C7: `cpufreq_add_dev` is idempotent on the policy table — for a CPU
that already has a table entry (with the driver registered and its
module alive, so the pin succeeds) a further call returns success and
leaves the whole state bit-for-bit unchanged (no allocation, no table
mutation); consequently running `add_dev(cpu)` twice ends in exactly
the state of running it once. -/
theorem add_dev_idempotent (aenv : AddEnv) (s : SysState) (cpu pid : Nat)
    (hlt : cpu < s.nrCpuIds) (hdrv : s.driverPresent = true)
    (halive : s.ownerAlive = true) (htab : s.table cpu = some pid) :
    cpufreq_add_dev aenv s cpu = (0, s) ∧
      cpufreq_add_dev aenv (cpufreq_add_dev aenv s cpu).2 cpu =
        cpufreq_add_dev aenv s cpu := by
  have hc := cpu_get_put_cancel s cpu pid hlt hdrv halive htab
  have hput := hc.2
  rw [hc.1] at hput
  have h1 : cpufreq_add_dev aenv s cpu = (0, s) := by
    unfold cpufreq_add_dev
    by_cases hon : s.online cpu = true
    · rw [if_neg (by simp [hon])]
      rw [hc.1]
      dsimp only
      rw [hput]
    · rw [if_pos (by simpa using hon)]
  exact ⟨h1, by rw [h1]; exact h1⟩

/-- Witness for C7: on the example state, re-adding CPU 0 (already
attached) is a no-op returning success, and a second call changes
nothing over the first. -/
theorem add_dev_idempotent_witness :
    cpufreq_add_dev exAddEnv exState 0 = (0, exState) ∧
      cpufreq_add_dev exAddEnv (cpufreq_add_dev exAddEnv exState 0).2 0 =
        cpufreq_add_dev exAddEnv exState 0 :=
  add_dev_idempotent exAddEnv exState 0 0 (by decide) rfl rfl rfl

/-- Helper: `cpufreq_get_policy` with a resolvable table entry returns a copy
of the attached policy and leaves the state unchanged. -/
theorem cpufreq_get_policy_some (s : SysState) (cpu pid : Nat)
    (hlt : cpu < s.nrCpuIds) (hdrv : s.driverPresent = true)
    (halive : s.ownerAlive = true) (htab : s.table cpu = some pid) :
    cpufreq_get_policy s cpu = (some (s.store pid), s) := by
  have hc := cpu_get_put_cancel s cpu pid hlt hdrv halive htab
  have hput := hc.2
  rw [hc.1] at hput
  unfold cpufreq_get_policy
  rw [hc.1]
  dsimp only
  rw [hput]

/-- Helper: `cpufreq_get_policy` never changes the state (net), whether the pin
succeeds or fails. -/
theorem cpufreq_get_policy_state (s : SysState) (cpu : Nat)
    (hdrv : s.driverPresent = true) (halive : s.ownerAlive = true) :
    (cpufreq_get_policy s cpu).2 = s := by
  by_cases h1 : cpu ≥ s.nrCpuIds
  · unfold cpufreq_get_policy cpufreq_cpu_get
    rw [if_pos h1]
  · rcases htab : s.table cpu with _ | q
    · unfold cpufreq_get_policy cpufreq_cpu_get
      rw [if_neg h1, if_neg (by simp [hdrv]), if_neg (by simp [halive])]
      dsimp only
      rw [htab]
      dsimp only
      cases s with
      | mk nrCpuIds online driverPresent ownerAlive modRefs table store policyCpu kobjRefs nextId =>
        simp
    · rw [cpufreq_get_policy_some s cpu q (by omega) hdrv halive htab]

/-- Counterexample to C3 as stated: writing 1500000 to
`scaling_min_freq` on a policy whose user ceiling is 1000000 fails
validation (the engine returns -EINVAL, which the store propagates),
yet policy state HAS changed — `user_policy.min` was overwritten with
the rejected value 1500000 (it was 200000 before the write), because
`store_one` assigns `user_policy.object` after `__cpufreq_set_policy`
unconditionally. -/
theorem store_rejected_write_counterexample :
    (store_scaling_min_freq exEnv exStateNarrow 0 (some 1500000) 8).1 =
      -EINVAL ∧
    ((store_scaling_min_freq exEnv exStateNarrow 0
        (some 1500000) 8).2.1.store 0).user_policy.min = 1500000 ∧
    (exStateNarrow.store 0).user_policy.min = 200000 :=
  ⟨by decide, by decide, by decide⟩

/-- With no governor of the given name registered (target driver), one
iteration of the `store_scaling_governor` loop leaves the state
untouched, whatever CPU it looks at. -/
theorem store_gov_step_fixed (env : Env) (s : SysState) (pid : Nat)
    (n : String)
    (hdrv : s.driverPresent = true) (halive : s.ownerAlive = true)
    (hsp : env.hasSetpolicy = false) (htg : env.hasTarget = true)
    (hfind : env.findGovernor n = none) (cpu : Nat) :
    store_scaling_governor_step env pid n s cpu = s := by
  unfold store_scaling_governor_step
  by_cases h1 : cpu ≥ s.nrCpuIds
  · have hg : cpufreq_get_policy s cpu = (none, s) := by
      unfold cpufreq_get_policy cpufreq_cpu_get
      rw [if_pos h1]
    rw [hg]
  · rcases htab : s.table cpu with _ | q
    · have hstate := cpufreq_get_policy_state s cpu hdrv halive
      have hfst : (cpufreq_get_policy s cpu).1 = none := by
        unfold cpufreq_get_policy cpufreq_cpu_get
        rw [if_neg h1, if_neg (by simp [hdrv]), if_neg (by simp [halive])]
        dsimp only
        rw [htab]
      have hg : cpufreq_get_policy s cpu = (none, s) := by
        cases hgp : cpufreq_get_policy s cpu with
        | mk a b =>
          rw [hgp] at hfst hstate
          cases hfst
          cases hstate
          rfl
      rw [hg]
    · rw [cpufreq_get_policy_some s cpu q (by omega) hdrv halive htab]
      dsimp only
      unfold cpufreq_parse_governor
      rw [if_neg (by simp [hsp]), if_pos (by simp [htg]), hfind]

/-- C3 (amended): for attribute writes that fail validation, with the
attribute surface's policy resolvable through the table: (a) a write to
`scaling_min_freq` that fails parsing propagates -EINVAL and changes no
state; (b) a write to `scaling_min_freq` (resp. (c) `scaling_max_freq`)
that parses but fails the engine's user-window validation propagates
-EINVAL and leaves the committed limits, mode and governor unchanged —
but, contrary to the claim as stated, `user_policy.min` (resp.
`user_policy.max`) is overwritten with the rejected parsed value; and
(d) a write of an unknown governor name to `scaling_governor` changes
no policy state but returns success (`count`) instead of propagating
an error. -/
theorem store_rejected_write_amended (env : Env) (s : SysState)
    (pid : Nat)
    (hlt : (s.store pid).cpu < s.nrCpuIds)
    (hdrv : s.driverPresent = true)
    (halive : s.ownerAlive = true)
    (htab : s.table ((s.store pid).cpu) = some pid) :
    (∀ count, store_scaling_min_freq env s pid none count =
      (-EINVAL, s, [])) ∧
    (∀ v count,
      (Nat.max v (Nat.min env.qosMin (s.store pid).user_policy.max) >
          (s.store pid).user_policy.max ∨
        Nat.min (s.store pid).max
            (Nat.max env.qosMax (s.store pid).user_policy.min) <
          (s.store pid).user_policy.min) →
      store_scaling_min_freq env s pid (some v) count =
        (-EINVAL,
          { s with store := fun i =>
              if i = pid then
                { s.store pid with user_policy :=
                  { (s.store pid).user_policy with min := v } }
              else s.store i },
          [])) ∧
    (∀ w count,
      (Nat.max (s.store pid).min
            (Nat.min env.qosMin (s.store pid).user_policy.max) >
          (s.store pid).user_policy.max ∨
        Nat.min w (Nat.max env.qosMax (s.store pid).user_policy.min) <
          (s.store pid).user_policy.min) →
      store_scaling_max_freq env s pid (some w) count =
        (-EINVAL,
          { s with store := fun i =>
              if i = pid then
                { s.store pid with user_policy :=
                  { (s.store pid).user_policy with max := w } }
              else s.store i },
          [])) ∧
    (∀ present name count, env.hasSetpolicy = false →
      env.hasTarget = true →
      env.findGovernor (name.take 15) = none →
      store_scaling_governor env s pid present (some name) count =
        ((count : Int), s)) := by
  have hgp := cpufreq_get_policy_some s ((s.store pid).cpu) pid hlt hdrv
    halive htab
  refine ⟨?_, ?_, ?_, ?_⟩
  · intro count
    unfold store_scaling_min_freq
    rw [hgp]
  · intro v count hrange
    unfold store_scaling_min_freq
    rw [hgp]
    dsimp only
    unfold cpufreq_set_policy
    dsimp only
    rw [if_pos hrange]
    dsimp only
    norm_num [EINVAL]
  · intro w count hrange
    unfold store_scaling_max_freq
    rw [hgp]
    dsimp only
    unfold cpufreq_set_policy
    dsimp only
    rw [if_pos hrange]
    dsimp only
    norm_num [EINVAL]
  · intro present name count hsp htg hfind
    unfold store_scaling_governor
    have hstep := store_gov_step_fixed env s pid (name.take 15) hdrv
      halive hsp htg hfind
    have hfold : ∀ l : List Nat,
        l.foldl (store_scaling_governor_step env pid (name.take 15)) s =
          s := by
      intro l
      induction l with
      | nil => rfl
      | cons c cs ih =>
        rw [List.foldl_cons, hstep c, ih]
    dsimp only
    rw [hfold]

/-- Witness for the amended C3: a parse failure is a strict no-op; the
rejected 1500000 min-write propagates -EINVAL while overwriting
`user_policy.min`; an unknown governor name returns `count` with no
state change. -/
theorem store_rejected_write_amended_witness :
    store_scaling_min_freq exEnv exStateNarrow 0 none 8 =
      (-EINVAL, exStateNarrow, []) ∧
    store_scaling_min_freq exEnv exStateNarrow 0 (some 1500000) 8 =
      (-EINVAL,
        { exStateNarrow with store := fun i =>
            if i = 0 then
              { exStateNarrow.store 0 with user_policy :=
                { (exStateNarrow.store 0).user_policy with
                  min := 1500000 } }
            else exStateNarrow.store i },
        []) ∧
    store_scaling_governor exEnv exStateNarrow 0 [0, 1] (some "foo") 3 =
      ((3 : Int), exStateNarrow) :=
  have h := store_rejected_write_amended exEnv exStateNarrow 0
    (by decide) rfl rfl rfl
  ⟨h.1 8, (h.2.1) 1500000 8 (by decide),
    (h.2.2.2) [0, 1] "foo" 3 rfl rfl rfl⟩
